import Mathlib

/-!
Verification of the option-container / document-compiler layer of a
MongoDB C++ driver excerpt: `options::create_collection_deprecated`,
`model::update_one`, and `options::pool`, shallowly embedded in Lean 4.

BSON documents are modelled as ordered key-value lists; a BSON array is
an ordered list of values.  The compilers in the source only ever append
key-value pairs in a fixed order, so list concatenation models the
builder's `append` and `concatenate` exactly.
-/

/-- A BSON value, restricted to the cases this layer produces:
booleans, 32-bit ints (C++ `int` literals such as the `flags` value),
64-bit ints (`std::int64_t` fields), sub-documents (`b_document`),
arrays, and UTF-8 strings (used by the validation sub-object). -/
inductive BsonValue : Type where
  | vBool : Bool → BsonValue
  | vInt32 : Int → BsonValue
  | vInt64 : Int → BsonValue
  | vString : String → BsonValue
  | vDoc : List (String × BsonValue) → BsonValue
  | vArray : List BsonValue → BsonValue

/-- A BSON document: an ordered sequence of key-value pairs, as produced
by `bsoncxx::builder::basic::document`. -/
abbrev BsonDoc : Type := List (String × BsonValue)

/-- The keys of a document, in order. -/
def BsonDoc.keys (d : BsonDoc) : List String := d.map Prod.fst

/-- First-match key lookup in a document, as a BSON reader would resolve
`doc["k"]`. -/
def BsonDoc.lookup (d : BsonDoc) (k : String) : Option BsonValue :=
  match d with
  | [] => none
  | (k', v) :: rest => if k' = k then some v else BsonDoc.lookup rest k

/-- A default-constructed `bsoncxx::document::view_or_value`: a view of
the empty BSON document. -/
def defaultDocumentViewOrValue : BsonDoc := []

/-- Modelled from the spec: `mongocxx::validation_criteria` is a nested
option group whose own implementation is outside the excerpt; per the
spec it is an option container "recursively compiled" by the same
fixed-order pattern.  It holds an optional validator rule document, an
optional validation level and an optional validation action, each
compiled to a single key-value pair under its canonical wire key
(`validator`, `validationLevel`, `validationAction`). -/
structure validation_criteria : Type where
  _rule : Option BsonDoc
  _level : Option String
  _action : Option String

/-- Modelled from the spec: the validation sub-object's own document
compiler, emitting one pair per present field in fixed order under its
canonical wire keys. -/
def validation_criteria.to_document_deprecated (v : validation_criteria) : BsonDoc :=
  (match v._rule with
   | some r => [("validator", BsonValue.vDoc r)]
   | none => ([] : BsonDoc)) ++
  (match v._level with
   | some l => [("validationLevel", BsonValue.vString l)]
   | none => ([] : BsonDoc)) ++
  (match v._action with
   | some a => [("validationAction", BsonValue.vString a)]
   | none => ([] : BsonDoc))

/-- The option container `options::create_collection_deprecated`: every
field is an explicit presence wrapper (`stdx::optional`), and a
default-constructed container has every member absent. -/
structure create_collection_deprecated : Type where
  _capped : Option Bool := none
  _collation : Option BsonDoc := none
  _max_documents : Option Int := none
  _no_padding : Option Bool := none
  _max_size : Option Int := none
  _storage_engine_opts : Option BsonDoc := none
  _validation : Option validation_criteria := none

/-- Setter `create_collection_deprecated::capped`; the C++ method stores
the value and returns `*this`, so the returned value is the updated
container. -/
def create_collection_deprecated.capped (o : create_collection_deprecated) (capped : Bool) : create_collection_deprecated :=
  { o with _capped := some capped }

/-- Setter `create_collection_deprecated::collation`. -/
def create_collection_deprecated.collation (o : create_collection_deprecated) (collation : BsonDoc) : create_collection_deprecated :=
  { o with _collation := some collation }

/-- Setter `create_collection_deprecated::max`. -/
def create_collection_deprecated.max (o : create_collection_deprecated) (max_documents : Int) : create_collection_deprecated :=
  { o with _max_documents := some max_documents }

/-- Setter `create_collection_deprecated::no_padding`. -/
def create_collection_deprecated.no_padding (o : create_collection_deprecated) (no_padding : Bool) : create_collection_deprecated :=
  { o with _no_padding := some no_padding }

/-- Setter `create_collection_deprecated::size`. -/
def create_collection_deprecated.size (o : create_collection_deprecated) (max_size : Int) : create_collection_deprecated :=
  { o with _max_size := some max_size }

/-- Setter `create_collection_deprecated::storage_engine`. -/
def create_collection_deprecated.storage_engine (o : create_collection_deprecated) (storage_engine_opts : BsonDoc) : create_collection_deprecated :=
  { o with _storage_engine_opts := some storage_engine_opts }

/-- Setter `create_collection_deprecated::validation_criteria`. -/
def create_collection_deprecated.validation_criteria (o : create_collection_deprecated) (validation : validation_criteria) : create_collection_deprecated :=
  { o with _validation := some validation }

/-- The document compiler
`create_collection_deprecated::to_document_deprecated`: for each field
in declaration order, if present append one key-value pair under its
wire key; the `no_padding` boolean is translated to the `int` bit flag
`0x10`/`0x00` under key `flags`; a present validation sub-object is
compiled and its pairs concatenated (spliced) into the parent. -/
def create_collection_deprecated.to_document_deprecated (o : create_collection_deprecated) : BsonDoc :=
  (match o._capped with
   | some b => [("capped", BsonValue.vBool b)]
   | none => ([] : BsonDoc)) ++
  (match o._collation with
   | some d => [("collation", BsonValue.vDoc d)]
   | none => ([] : BsonDoc)) ++
  (match o._max_documents with
   | some n => [("max", BsonValue.vInt64 n)]
   | none => ([] : BsonDoc)) ++
  (match o._max_size with
   | some n => [("size", BsonValue.vInt64 n)]
   | none => ([] : BsonDoc)) ++
  (match o._no_padding with
   | some b => [("flags", BsonValue.vInt32 (if b then 0x10 else 0x00))]
   | none => ([] : BsonDoc)) ++
  (match o._storage_engine_opts with
   | some d => [("storageEngine", BsonValue.vDoc d)]
   | none => ([] : BsonDoc)) ++
  (match o._validation with
   | some v => v.to_document_deprecated
   | none => ([] : BsonDoc))

/-- `create_collection_deprecated::to_document`, which simply calls
`to_document_deprecated`. -/
def create_collection_deprecated.to_document (o : create_collection_deprecated) : BsonDoc :=
  o.to_document_deprecated

/-- Modelled from the spec: `mongocxx::hint` is an opaque,
move-constructible index-hint value whose contents this layer does not
interpret; it is represented by an opaque BSON payload. -/
structure hint : Type where
  rep : BsonValue

/-- Modelled from the spec: a pipeline is an ordered sequence of
aggregation stages (each stage a document). -/
structure pipeline : Type where
  stages : List BsonDoc

/-- Modelled from the spec: `pipeline::view_array`, the pipeline
rendered as its array-of-stages view. -/
def pipeline.view_array (p : pipeline) : List BsonValue :=
  p.stages.map BsonValue.vDoc

/-- Modelled from the spec: constructing a `bsoncxx::document::value`
from an array view.  A BSON array is byte-identical to a document whose
keys are the decimal index strings "0", "1", ..., so the conversion
yields exactly that document. -/
def documentValueOfArrayView (a : List BsonValue) : BsonDoc :=
  a.enum.map fun p => (toString p.1, p.2)

/-- The write model `model::update_one`: two required fields (`_filter`
and `_update`) plus four optional fields, each an explicit presence
wrapper (`stdx::optional`). -/
structure update_one : Type where
  _filter : BsonDoc
  _update : BsonDoc
  _collation : Option BsonDoc := none
  _array_filters : Option (List BsonValue) := none
  _upsert : Option Bool := none
  _hint : Option hint := none

/-- Constructor `update_one(filter, update)` with a plain modification
document: stores both required fields; optional members are
default-constructed (absent). -/
def update_one.ofDocument (filter update : BsonDoc) : update_one :=
  { _filter := filter, _update := update }

/-- Constructor `update_one(filter, const pipeline&)`: stores the filter
and `bsoncxx::document::value(update.view_array())`, the pipeline's
array-of-stages view reinterpreted as a document. -/
def update_one.ofPipeline (filter : BsonDoc) (update : pipeline) : update_one :=
  { _filter := filter, _update := documentValueOfArrayView update.view_array }

/-- Constructor `update_one(filter, {})` with the empty-update literal:
stores the filter and default-constructs `_update`. -/
def update_one.ofEmpty (filter : BsonDoc) : update_one :=
  { _filter := filter, _update := defaultDocumentViewOrValue }

/-- Getter `update_one::filter`. -/
def update_one.filter (m : update_one) : BsonDoc := m._filter

/-- Getter `update_one::update`. -/
def update_one.update (m : update_one) : BsonDoc := m._update

/-- Setter `update_one::collation`; the C++ method stores the value and
returns `*this`, so the returned value is the updated container
(getters are the structure projections). -/
def update_one.collation (m : update_one) (collation : BsonDoc) : update_one :=
  { m with _collation := some collation }

/-- Setter `update_one::hint`. -/
def update_one.hint (m : update_one) (index_hint : hint) : update_one :=
  { m with _hint := some index_hint }

/-- Setter `update_one::upsert`. -/
def update_one.upsert (m : update_one) (upsert : Bool) : update_one :=
  { m with _upsert := some upsert }

/-- Setter `update_one::array_filters`. -/
def update_one.array_filters (m : update_one) (array_filters : List BsonValue) : update_one :=
  { m with _array_filters := some array_filters }

/-- Modelled from the spec: `options::client` is an upstream option
container that `options::pool` stores opaquely and never inspects; it
is modelled as an opaque payload whose default constructor yields the
empty payload. -/
structure client : Type where
  rep : BsonDoc := []

/-- Modelled from the spec: a default-constructed `options::client`,
the default argument of the `options::pool` constructor. -/
def defaultClient : client := {}

/-- The option container `options::pool`: its only state is the stored
client options. -/
structure pool : Type where
  _client_opts : client

/-- Modelled from the spec: the `options::pool` constructor
`pool(client client_opts = client())` stores the supplied client
options (default-constructed when omitted). -/
def pool.ofClient (client_opts : client := defaultClient) : pool :=
  { _client_opts := client_opts }

/-- Modelled from the spec: getter `pool::client_opts`, returning the
stored client options. -/
def pool.client_opts (p : pool) : client := p._client_opts

/-- One optional field's contribution to a compiled document: a single
key-value pair under the field's canonical wire key when the field is
present, nothing when absent. -/
def optPair {α : Type} (field : Option α) (key : String) (render : α → BsonValue) : BsonDoc :=
  match field with
  | some a => [(key, render a)]
  | none => ([] : BsonDoc)

/-- Invoking the const method `to_document_deprecated` on a container:
the call produces the compiled document and leaves the receiver's state
unchanged (the method mutates nothing). -/
def create_collection_deprecated.to_document_deprecated_call (o : create_collection_deprecated) : BsonDoc × create_collection_deprecated :=
  (o.to_document_deprecated, o)

/-- A present validation sub-object's contribution to the compiled
document: its own compiled pairs, spliced; nothing when absent. -/
def optSplice (field : Option validation_criteria) : BsonDoc :=
  match field with
  | some v => v.to_document_deprecated
  | none => ([] : BsonDoc)

lemma to_document_deprecated_eq_fragments (o : create_collection_deprecated) :
    o.to_document_deprecated =
      optPair o._capped "capped" BsonValue.vBool ++
      optPair o._collation "collation" BsonValue.vDoc ++
      optPair o._max_documents "max" BsonValue.vInt64 ++
      optPair o._max_size "size" BsonValue.vInt64 ++
      optPair o._no_padding "flags" (fun b => BsonValue.vInt32 (if b then 0x10 else 0x00)) ++
      optPair o._storage_engine_opts "storageEngine" BsonValue.vDoc ++
      optSplice o._validation := by
  rcases o with ⟨c1, c2, c3, c4, c5, c6, c7⟩
  cases c1 <;> cases c2 <;> cases c3 <;> cases c4 <;> cases c5 <;> cases c6 <;> cases c7 <;> rfl

lemma BsonDoc.lookup_append (a b : BsonDoc) (k : String) :
    (a ++ b).lookup k = (a.lookup k).or (b.lookup k) := by
  induction a with
  | nil => rfl
  | cons hd tl ih =>
    rcases hd with ⟨k', v⟩
    by_cases h : k' = k <;> simp [BsonDoc.lookup, h, ih, Option.or]

lemma lookup_optPair {α : Type} (f : Option α) (key k : String) (r : α → BsonValue) :
    (optPair f key r).lookup k = if key = k then f.map r else none := by
  cases f <;> simp [optPair, BsonDoc.lookup]

lemma validation_lookup_flags (v : validation_criteria) :
    v.to_document_deprecated.lookup "flags" = none := by
  rcases v with ⟨r, l, a⟩
  cases r <;> cases l <;> cases a <;>
    simp [validation_criteria.to_document_deprecated, BsonDoc.lookup, BsonDoc.lookup_append]

/-- C1: `to_document_deprecated` emits, in the fixed order capped,
collation, max, size, flags, storageEngine, then the validation
sub-object's spliced pairs, exactly one key-value pair per present
optional field under its canonical wire key and nothing for an absent
field; in particular a container with zero optional fields set compiles
to an empty document. -/
theorem create_collection_deprecated_to_document_fieldwise (o : create_collection_deprecated) :
    o.to_document_deprecated =
      optPair o._capped "capped" BsonValue.vBool ++
      optPair o._collation "collation" BsonValue.vDoc ++
      optPair o._max_documents "max" BsonValue.vInt64 ++
      optPair o._max_size "size" BsonValue.vInt64 ++
      optPair o._no_padding "flags" (fun b => BsonValue.vInt32 (if b then 0x10 else 0x00)) ++
      optPair o._storage_engine_opts "storageEngine" BsonValue.vDoc ++
      optSplice o._validation ∧
    ({} : create_collection_deprecated).to_document_deprecated = ([] : BsonDoc) :=
  ⟨to_document_deprecated_eq_fragments o, rfl⟩

/-- C2: the `no_padding` boolean is translated to the legacy bit flag
under key `flags`: set to `true` the compiled document's `flags` entry
is the int 0x10, set to `false` it is 0x00, and never set the compiled
document has no `flags` key at all. -/
theorem create_collection_deprecated_flags_translation (o : create_collection_deprecated) :
    (o._no_padding = some true →
      o.to_document_deprecated.lookup "flags" = some (BsonValue.vInt32 0x10)) ∧
    (o._no_padding = some false →
      o.to_document_deprecated.lookup "flags" = some (BsonValue.vInt32 0x00)) ∧
    (o._no_padding = none →
      o.to_document_deprecated.lookup "flags" = none) := by
  refine ⟨fun h => ?_, fun h => ?_, fun h => ?_⟩ <;>
    rcases hv : o._validation with _ | v <;>
      simp [to_document_deprecated_eq_fragments, BsonDoc.lookup_append, lookup_optPair, h, hv,
        optSplice, validation_lookup_flags, Option.or]

/-- Witness for C2: all three branches exercised on concrete
containers. -/
theorem create_collection_deprecated_flags_translation_witness :
    (({} : create_collection_deprecated).no_padding true).to_document_deprecated.lookup "flags"
        = some (BsonValue.vInt32 0x10) ∧
    (({} : create_collection_deprecated).no_padding false).to_document_deprecated.lookup "flags"
        = some (BsonValue.vInt32 0x00) ∧
    ({} : create_collection_deprecated).to_document_deprecated.lookup "flags" = none :=
  ⟨(create_collection_deprecated_flags_translation
      (({} : create_collection_deprecated).no_padding true)).1 rfl,
   (create_collection_deprecated_flags_translation
      (({} : create_collection_deprecated).no_padding false)).2.1 rfl,
   (create_collection_deprecated_flags_translation
      ({} : create_collection_deprecated)).2.2 rfl⟩

/-- C3: constructing `update_one` from a pipeline stores the same
update representation as constructing it directly from the
array-document that the pipeline renders (its array-of-stages view
reinterpreted as a document); in particular `update()` agrees on both
construction paths. -/
theorem update_one_pipeline_equivalence (f : BsonDoc) (p : pipeline) :
    update_one.ofPipeline f p
        = update_one.ofDocument f (documentValueOfArrayView p.view_array) ∧
    (update_one.ofPipeline f p).update
        = (update_one.ofDocument f (documentValueOfArrayView p.view_array)).update :=
  ⟨rfl, rfl⟩

/-- C4: the empty-update-literal construction path is total and yields
the default-constructed (empty) update document: `update()` returns the
default document value, and the filter is stored unchanged. -/
theorem update_one_empty_update_default (f : BsonDoc) :
    (update_one.ofEmpty f).update = defaultDocumentViewOrValue ∧
    (update_one.ofEmpty f).filter = f :=
  ⟨rfl, rfl⟩

/-- C8: document compilation is deterministic and idempotent: invoking
the compiler leaves the container's fields unchanged, and a second
invocation on the post-call container yields an identical document. -/
theorem create_collection_deprecated_to_document_idempotent (o : create_collection_deprecated) :
    o.to_document_deprecated_call.1
        = (o.to_document_deprecated_call.2).to_document_deprecated_call.1 ∧
    o.to_document_deprecated_call.2 = o :=
  ⟨rfl, rfl⟩

/-- C9: the non-deprecated entry point `to_document` returns exactly
the same document as `to_document_deprecated` on every container. -/
theorem create_collection_deprecated_to_document_alias (o : create_collection_deprecated) :
    o.to_document = o.to_document_deprecated :=
  rfl

/-- C5: when the validation field holds a sub-object, the compiled
document ends with the sub-object's own compiled pairs spliced directly
into the parent (no wrapper key): every pair and every key of the
sub-object's compiled document appears at the top level of the parent
document. -/
theorem create_collection_deprecated_validation_flattening
    (o : create_collection_deprecated) (v : validation_criteria)
    (h : o._validation = some v) :
    (∃ pre : BsonDoc, o.to_document_deprecated = pre ++ v.to_document_deprecated) ∧
    (∀ kv, kv ∈ v.to_document_deprecated → kv ∈ o.to_document_deprecated) ∧
    (∀ k, k ∈ (v.to_document_deprecated).keys → k ∈ (o.to_document_deprecated).keys) := by
  have hfrag := to_document_deprecated_eq_fragments o
  rw [h] at hfrag
  simp only [optSplice] at hfrag
  refine ⟨⟨_, hfrag⟩, fun kv hkv => ?_, fun k hk => ?_⟩
  · rw [hfrag]
    exact List.mem_append_right _ hkv
  · rw [hfrag]
    unfold BsonDoc.keys
    rw [List.map_append]
    exact List.mem_append_right _ hk

/-- Witness for C5: a concrete validation sub-object with two keys,
both found at the top level of the parent's compiled document. -/
theorem create_collection_deprecated_validation_flattening_witness :
    ("validationLevel", BsonValue.vString "strict")
        ∈ (({} : create_collection_deprecated).validation_criteria
            ⟨none, some "strict", some "error"⟩).to_document_deprecated ∧
    ("validationAction", BsonValue.vString "error")
        ∈ (({} : create_collection_deprecated).validation_criteria
            ⟨none, some "strict", some "error"⟩).to_document_deprecated :=
  ⟨(create_collection_deprecated_validation_flattening _ _ rfl).2.1 _
      (by simp [validation_criteria.to_document_deprecated]),
   (create_collection_deprecated_validation_flattening _ _ rfl).2.1 _
      (by simp [validation_criteria.to_document_deprecated])⟩

/-- C6: for every field of both option containers, the setter stores
its value as present in the container it returns (the updated `*this`),
and every other field — including the required filter and update — is
left unchanged. -/
theorem option_container_setter_getter_frame
    (m : update_one) (o : create_collection_deprecated)
    (cdoc : BsonDoc) (ih : hint) (ub : Bool) (af : List BsonValue)
    (cb : Bool) (ccol : BsonDoc) (mi : Int) (npb : Bool) (sz : Int)
    (se : BsonDoc) (vc : validation_criteria) :
    (m.collation cdoc)._collation = some cdoc ∧
    (m.collation cdoc)._filter = m._filter ∧
    (m.collation cdoc)._update = m._update ∧
    (m.collation cdoc)._array_filters = m._array_filters ∧
    (m.collation cdoc)._upsert = m._upsert ∧
    (m.collation cdoc)._hint = m._hint ∧
    (m.hint ih)._hint = some ih ∧
    (m.hint ih)._filter = m._filter ∧
    (m.hint ih)._update = m._update ∧
    (m.hint ih)._collation = m._collation ∧
    (m.hint ih)._array_filters = m._array_filters ∧
    (m.hint ih)._upsert = m._upsert ∧
    (m.upsert ub)._upsert = some ub ∧
    (m.upsert ub)._filter = m._filter ∧
    (m.upsert ub)._update = m._update ∧
    (m.upsert ub)._collation = m._collation ∧
    (m.upsert ub)._array_filters = m._array_filters ∧
    (m.upsert ub)._hint = m._hint ∧
    (m.array_filters af)._array_filters = some af ∧
    (m.array_filters af)._filter = m._filter ∧
    (m.array_filters af)._update = m._update ∧
    (m.array_filters af)._collation = m._collation ∧
    (m.array_filters af)._upsert = m._upsert ∧
    (m.array_filters af)._hint = m._hint ∧
    (o.capped cb)._capped = some cb ∧
    (o.capped cb)._collation = o._collation ∧
    (o.capped cb)._max_documents = o._max_documents ∧
    (o.capped cb)._no_padding = o._no_padding ∧
    (o.capped cb)._max_size = o._max_size ∧
    (o.capped cb)._storage_engine_opts = o._storage_engine_opts ∧
    (o.capped cb)._validation = o._validation ∧
    (o.collation ccol)._collation = some ccol ∧
    (o.collation ccol)._capped = o._capped ∧
    (o.collation ccol)._max_documents = o._max_documents ∧
    (o.collation ccol)._no_padding = o._no_padding ∧
    (o.collation ccol)._max_size = o._max_size ∧
    (o.collation ccol)._storage_engine_opts = o._storage_engine_opts ∧
    (o.collation ccol)._validation = o._validation ∧
    (o.max mi)._max_documents = some mi ∧
    (o.max mi)._capped = o._capped ∧
    (o.max mi)._collation = o._collation ∧
    (o.max mi)._no_padding = o._no_padding ∧
    (o.max mi)._max_size = o._max_size ∧
    (o.max mi)._storage_engine_opts = o._storage_engine_opts ∧
    (o.max mi)._validation = o._validation ∧
    (o.no_padding npb)._no_padding = some npb ∧
    (o.no_padding npb)._capped = o._capped ∧
    (o.no_padding npb)._collation = o._collation ∧
    (o.no_padding npb)._max_documents = o._max_documents ∧
    (o.no_padding npb)._max_size = o._max_size ∧
    (o.no_padding npb)._storage_engine_opts = o._storage_engine_opts ∧
    (o.no_padding npb)._validation = o._validation ∧
    (o.size sz)._max_size = some sz ∧
    (o.size sz)._capped = o._capped ∧
    (o.size sz)._collation = o._collation ∧
    (o.size sz)._max_documents = o._max_documents ∧
    (o.size sz)._no_padding = o._no_padding ∧
    (o.size sz)._storage_engine_opts = o._storage_engine_opts ∧
    (o.size sz)._validation = o._validation ∧
    (o.storage_engine se)._storage_engine_opts = some se ∧
    (o.storage_engine se)._capped = o._capped ∧
    (o.storage_engine se)._collation = o._collation ∧
    (o.storage_engine se)._max_documents = o._max_documents ∧
    (o.storage_engine se)._no_padding = o._no_padding ∧
    (o.storage_engine se)._max_size = o._max_size ∧
    (o.storage_engine se)._validation = o._validation ∧
    (o.validation_criteria vc)._validation = some vc ∧
    (o.validation_criteria vc)._capped = o._capped ∧
    (o.validation_criteria vc)._collation = o._collation ∧
    (o.validation_criteria vc)._max_documents = o._max_documents ∧
    (o.validation_criteria vc)._no_padding = o._no_padding ∧
    (o.validation_criteria vc)._max_size = o._max_size ∧
    (o.validation_criteria vc)._storage_engine_opts = o._storage_engine_opts := by
  repeat' apply And.intro
  all_goals rfl

/-- C7: every construction path of both containers leaves every
optional field absent: all three `update_one` constructors (plain
document, pipeline, empty-update literal, with arbitrary required
arguments) and a default-constructed `create_collection_deprecated`. -/
theorem option_container_fresh_fields_absent (f u : BsonDoc) (p : pipeline) :
    (update_one.ofDocument f u)._collation = none ∧
    (update_one.ofDocument f u)._array_filters = none ∧
    (update_one.ofDocument f u)._upsert = none ∧
    (update_one.ofDocument f u)._hint = none ∧
    (update_one.ofPipeline f p)._collation = none ∧
    (update_one.ofPipeline f p)._array_filters = none ∧
    (update_one.ofPipeline f p)._upsert = none ∧
    (update_one.ofPipeline f p)._hint = none ∧
    (update_one.ofEmpty f)._collation = none ∧
    (update_one.ofEmpty f)._array_filters = none ∧
    (update_one.ofEmpty f)._upsert = none ∧
    (update_one.ofEmpty f)._hint = none ∧
    ({} : create_collection_deprecated)._capped = none ∧
    ({} : create_collection_deprecated)._collation = none ∧
    ({} : create_collection_deprecated)._max_documents = none ∧
    ({} : create_collection_deprecated)._no_padding = none ∧
    ({} : create_collection_deprecated)._max_size = none ∧
    ({} : create_collection_deprecated)._storage_engine_opts = none ∧
    ({} : create_collection_deprecated)._validation = none := by
  repeat' apply And.intro
  all_goals rfl

/-- C10: `options::pool` stores exactly the client options supplied at
construction (`client_opts()` returns them), a pool constructed with no
argument holds a default-constructed client options value, and a pool
carries no state beyond its client options (pools with equal client
options are equal). -/
theorem pool_stores_client_opts (c : client) (p q : pool)
    (h : p.client_opts = q.client_opts) :
    (pool.ofClient c).client_opts = c ∧
    (pool.ofClient defaultClient).client_opts = defaultClient ∧
    p = q := by
  refine ⟨rfl, rfl, ?_⟩
  rcases p with ⟨a⟩
  rcases q with ⟨b⟩
  simp only [pool.client_opts] at h
  rw [h]

/-- Witness for C10: the theorem applied to a concrete client options
value and a pair of concretely equal pools. -/
theorem pool_stores_client_opts_witness :
    (pool.ofClient defaultClient).client_opts = defaultClient ∧
    pool.ofClient defaultClient = pool.ofClient defaultClient :=
  ⟨(pool_stores_client_opts defaultClient (pool.ofClient defaultClient)
      (pool.ofClient defaultClient) rfl).1,
   (pool_stores_client_opts defaultClient (pool.ofClient defaultClient)
      (pool.ofClient defaultClient) rfl).2.2⟩
